import Mathlib

set_option maxRecDepth 100000

/-!
Verification development for the `gwb-dc-inversions` repository.

The repository consists of five Jupyter notebooks about 1D DC-resistivity
sounding interpretation.  We embed each notebook shallowly as a list of
cells; a markdown cell is kept as its list of source lines and a code cell
as a list of statements of a small Python fragment (`PyStmt` / `PyExpr`).
Literal braces occurring in markdown text are written with the escapes
`\x7b` and `\x7d`.

Two pieces of the notebooks' glue code carry actual computational content
and are additionally embedded executably:
* the survey-construction loop of `DC-1d-smooth-inversion-code.ipynb`
  (`np.unique` / `np.sort` / slice arithmetic) — see `kArray`,
  `receiverBlocks`;
* its uncertainty-assignment cell — see `uncertaintiesOf`.
-/

/-! ## A small Python abstract syntax -/

mutual

inductive PyExpr where
  | nameE (s : String)
  | attr (e : PyExpr) (f : String)
  | call (f : PyExpr) (args : PyExprList) (kwargs : PyKwList)
  | subscript (e : PyExpr) (ix : PyExpr)
  | sliceE (e lo hi : PyExpr)
  | numE (q : ℚ)
  | strE (s : String)
  | boolE (b : Bool)
  | noneE
  | listE (es : PyExprList)
  | tupleE (es : PyExprList)
  | dictE (es : PyPairList)
  | binop (op : String) (a b : PyExpr)
  | unop (op : String) (a : PyExpr)

inductive PyExprList where
  | nil
  | cons (e : PyExpr) (rest : PyExprList)

inductive PyKwList where
  | nil
  | cons (k : String) (v : PyExpr) (rest : PyKwList)

inductive PyPairList where
  | nil
  | cons (a b : PyExpr) (rest : PyPairList)

end

mutual

inductive PyStmt where
  | importAs (module al : String)
  | importFrom (module : String) (names : List (String × String))
  | assign (lhs rhs : PyExpr)
  | exprStmt (e : PyExpr)
  | forLoop (v : String) (iter : PyExpr) (body : PyStmtList)
  | ifElse (cond : PyExpr) (thn els : PyStmtList)
  | comment (s : String)
  | magic (s : String)
  | funcDef (nm : String) (params : List String) (body : PyStmtList)
  | classDef (nm : String) (body : PyStmtList)

inductive PyStmtList where
  | nil
  | cons (s : PyStmt) (rest : PyStmtList)

end

inductive Cell where
  | markdown (lines : List String)
  | code (stmts : List PyStmt)

abbrev Notebook := List Cell

/-! ### Builders: plain lists to the bespoke list types -/

def el : List PyExpr → PyExprList
  | [] => .nil
  | e :: r => .cons e (el r)

def kw : List (String × PyExpr) → PyKwList
  | [] => .nil
  | (k, v) :: r => .cons k v (kw r)

def pl : List (PyExpr × PyExpr) → PyPairList
  | [] => .nil
  | (a, b) :: r => .cons a b (pl r)

def sl : List PyStmt → PyStmtList
  | [] => .nil
  | s :: r => .cons s (sl r)

def pn (s : String) : PyExpr := .nameE s

def pa (e : PyExpr) (f : String) : PyExpr := .attr e f

def pc (f : PyExpr) (args : List PyExpr) (kwargs : List (String × PyExpr)) : PyExpr :=
  .call f (el args) (kw kwargs)

def ps (s : String) : PyExpr := .strE s

def pq (q : ℚ) : PyExpr := .numE q

/-! ## Analysis functions over the syntax -/

mutual

/-- All identifiers occurring in an expression: variable names, attribute
names and keyword-argument names. -/
def exprIdents : PyExpr → List String
  | .nameE s => [s]
  | .attr e f => exprIdents e ++ [f]
  | .call f a k => exprIdents f ++ exprsIdents a ++ kwIdents k
  | .subscript e ix => exprIdents e ++ exprIdents ix
  | .sliceE e lo hi => exprIdents e ++ exprIdents lo ++ exprIdents hi
  | .numE _ => []
  | .strE _ => []
  | .boolE _ => []
  | .noneE => []
  | .listE es => exprsIdents es
  | .tupleE es => exprsIdents es
  | .dictE es => pairIdents es
  | .binop _ a b => exprIdents a ++ exprIdents b
  | .unop _ a => exprIdents a

def exprsIdents : PyExprList → List String
  | .nil => []
  | .cons e rest => exprIdents e ++ exprsIdents rest

def kwIdents : PyKwList → List String
  | .nil => []
  | .cons k v rest => k :: (exprIdents v ++ kwIdents rest)

def pairIdents : PyPairList → List String
  | .nil => []
  | .cons a b rest => exprIdents a ++ exprIdents b ++ pairIdents rest

end

mutual

/-- An expression together with all of its subexpressions. -/
def exprSubterms : PyExpr → List PyExpr
  | .nameE s => [.nameE s]
  | .attr e f => .attr e f :: exprSubterms e
  | .call f a k => .call f a k :: (exprSubterms f ++ exprsSubterms a ++ kwSubterms k)
  | .subscript e ix => .subscript e ix :: (exprSubterms e ++ exprSubterms ix)
  | .sliceE e lo hi => .sliceE e lo hi :: (exprSubterms e ++ exprSubterms lo ++ exprSubterms hi)
  | .numE q => [.numE q]
  | .strE s => [.strE s]
  | .boolE b => [.boolE b]
  | .noneE => [.noneE]
  | .listE es => .listE es :: exprsSubterms es
  | .tupleE es => .tupleE es :: exprsSubterms es
  | .dictE es => .dictE es :: pairSubterms es
  | .binop o a b => .binop o a b :: (exprSubterms a ++ exprSubterms b)
  | .unop o a => .unop o a :: exprSubterms a

def exprsSubterms : PyExprList → List PyExpr
  | .nil => []
  | .cons e rest => exprSubterms e ++ exprsSubterms rest

def kwSubterms : PyKwList → List PyExpr
  | .nil => []
  | .cons _ v rest => exprSubterms v ++ kwSubterms rest

def pairSubterms : PyPairList → List PyExpr
  | .nil => []
  | .cons a b rest => exprSubterms a ++ exprSubterms b ++ pairSubterms rest

end

mutual

/-- A statement together with all statements nested inside its bodies. -/
def stmtSelfAndSub : PyStmt → List PyStmt
  | .forLoop v it b => .forLoop v it b :: stmtListSub b
  | .ifElse c t e => .ifElse c t e :: (stmtListSub t ++ stmtListSub e)
  | .funcDef n p b => .funcDef n p b :: stmtListSub b
  | .classDef n b => .classDef n b :: stmtListSub b
  | s => [s]

def stmtListSub : PyStmtList → List PyStmt
  | .nil => []
  | .cons s rest => stmtSelfAndSub s ++ stmtListSub rest

end

def cellStmts : Cell → List PyStmt
  | .markdown _ => []
  | .code s => s

def cellMarkdown : Cell → List String
  | .markdown ls => ls
  | .code _ => []

/-- The top-level statements of all code cells of a notebook, in order. -/
def nbStmts (nb : Notebook) : List PyStmt := (nb.map cellStmts).flatten

/-- All statements of a notebook, including those nested in loop bodies and
branches. -/
def deepStmts (nb : Notebook) : List PyStmt := ((nbStmts nb).map stmtSelfAndSub).flatten

/-- All markdown lines of a notebook, in order. -/
def nbMarkdownLines (nb : Notebook) : List String := (nb.map cellMarkdown).flatten

/-- Identifiers contributed by a single statement (bodies excluded; they are
accounted for through `deepStmts`). -/
def stmtOwnIdents : PyStmt → List String
  | .importAs _ al => [al]
  | .importFrom _ ns => ns.foldr (fun p acc => p.1 :: p.2 :: acc) []
  | .assign l r => exprIdents l ++ exprIdents r
  | .exprStmt e => exprIdents e
  | .forLoop v it _ => v :: exprIdents it
  | .ifElse c _ _ => exprIdents c
  | .comment _ => []
  | .magic _ => []
  | .funcDef n p _ => n :: p
  | .classDef n _ => [n]

/-- All identifiers occurring in the code of a notebook. -/
def nbCodeIdents (nb : Notebook) : List String := ((deepStmts nb).map stmtOwnIdents).flatten

/-- All expressions (with their subexpressions) occurring in a notebook. -/
def nbExprs (nb : Notebook) : List PyExpr :=
  (((deepStmts nb).map (fun s =>
    match s with
    | .assign l r => [l, r]
    | .exprStmt e => [e]
    | .forLoop _ it _ => [it]
    | .ifElse c _ _ => [c]
    | _ => [])).flatten.map exprSubterms).flatten

/-- The module from which a given name is bound by an import statement of the
notebook, if any. -/
def importModuleOf (nb : Notebook) (x : String) : Option String :=
  (deepStmts nb).findSome? (fun s =>
    match s with
    | .importAs m al => if al == x then some m else none
    | .importFrom m ns => if ns.any (fun p => p.2 == x) then some m else none
    | _ => none)

/-- Whether `p` is a prefix of `s` (on the character lists, so that it
evaluates by reduction). -/
def strPrefixOf (p s : String) : Bool := List.isPrefixOf (p.toList) (s.toList)

/-- Whether the name `x` is bound in `nb` by an import from library `lib`
(i.e. from `lib` itself or one of its submodules). -/
def importedFromLib (nb : Notebook) (x lib : String) : Bool :=
  match importModuleOf nb x with
  | some m => strPrefixOf lib m
  | none => false

/-- All modules imported by a notebook. -/
def nbImportedModules (nb : Notebook) : List String :=
  (deepStmts nb).filterMap (fun s =>
    match s with
    | .importAs m _ => some m
    | .importFrom m _ => some m
    | _ => none)

/-- Whether the notebook imports some module of the library `lib`. -/
def importsLib (nb : Notebook) (lib : String) : Bool :=
  (nbImportedModules nb).any (fun m => strPrefixOf lib m)

/-- The right-hand side of the first assignment to the plain variable `x`. -/
def findAssign (nb : Notebook) (x : String) : Option PyExpr :=
  (deepStmts nb).findSome? (fun s =>
    match s with
    | .assign (.nameE y) r => if y == x then some r else none
    | _ => none)

/-- Whether the notebook contains the bare statement `obj.meth(...)`. -/
def hasMethodCallStmt (nb : Notebook) (obj meth : String) : Bool :=
  (deepStmts nb).any (fun s =>
    match s with
    | .exprStmt (.call (.attr (.nameE o) m) _ _) => o == obj && m == meth
    | _ => false)

/-- Whether the notebook contains a comment with the given text. -/
def hasCommentStmt (nb : Notebook) (t : String) : Bool :=
  (deepStmts nb).any (fun s =>
    match s with
    | .comment c => c == t
    | _ => false)

/-- Number of Python function or class definitions in the notebook. -/
def defCount (nb : Notebook) : Nat :=
  (deepStmts nb).countP (fun s =>
    match s with
    | .funcDef _ _ _ => true
    | .classDef _ _ => true
    | _ => false)

/-- All constructor calls `obj.f(...)` in the notebook whose attribute name is
`f`. -/
def callsOfAttr (nb : Notebook) (f : String) : List PyExpr :=
  (nbExprs nb).filter (fun e =>
    match e with
    | .call (.attr _ g) _ _ => g == f
    | _ => false)

def hasSubList (pat : List Char) : List Char → Bool
  | [] => pat.isEmpty
  | c :: rest => pat.isPrefixOf (c :: rest) || hasSubList pat rest

/-- Whether `pat` occurs as a substring of `s`. -/
def strHasSub (pat s : String) : Bool := hasSubList (pat.toList) (s.toList)

/-- All code identifiers of the notebook that contain `"doi"`. -/
def doiIdents (nb : Notebook) : List String :=
  (nbCodeIdents nb).filter (fun s => strHasSub ("doi") s)

/-- A notebook whose interactivity is wired only through `utils` widget apps:
it imports from the `utils` package and never imports the numerical libraries
SimPEG or discretize. -/
def wiredThroughUtilsApps (nb : Notebook) : Bool :=
  importsLib nb ("utils") && !importsLib nb ("SimPEG") && !importsLib nb ("discretize")

/-! ## The five notebooks

`src/unnamed/part_000` holds two notebooks: the parametric 3-layer
inversion notebook and the smooth (app-driven) inversion notebook. -/

/-- The markdown cell of Step 2 of the parametric notebook, which documents
the manual 3-layer curve-fitting app. -/
def parametricStep2Lines : List String := [
  ("## Step 2: Manually fit observed VES sounding data using 3-layer app"),
  (""),
  ("Here, we try a *curve fitting* approach to fit the sounding curve with 3 layers. The Earth may have more complicated structures or have more layers, but this is a good way to explain the most important features in the data. The adjustable parameters for this step are:"),
  (""),
  ("- $\\rho_1$: resistivity of the top layer"),
  ("- $\\rho_2$: resistivity of the second layer"),
  ("- $\\rho_3$: resistivity of the last layer"),
  ("- $h_1$: thickness of the top layer"),
  ("- $h_2$: thickness of the second layer"),
  (""),
  ("(The last layer has an infinite thickness)")]

/-- First notebook of `src/unnamed/part_000`: parametric 1D DC resistivity
inversion driven by `DC1D3LayerApp`. -/
def parametricNotebook : Notebook := [
  .markdown [("# Parametric 1D DC Resistivity Inversion")],
  .code [
    .importFrom ("utils.DCResistivity") [(("DC1D3LayerApp"), ("DC1D3LayerApp"))],
    .assign (pn ("dc_app")) (pc (pn ("DC1D3LayerApp")) [] [])],
  .markdown [
    ("# Purpose"),
    (""),
    ("Here, we load DC sounding data (VES format), interpret the data and invert the data to recover a 1D resistivity model. The steps for setting up and running and inversion and explained. In this notebook, we specify the number of layers responsible for the data values. The inversion will adjust the thickness and resistivity of these layers when recovering a resistivity model. The final result of the notebook is a 1D resistivity model that has approximately the same structures as the true geology."),
    (""),
    ("## Outline"),
    ("This notebook is used to complete the following steps:"),
    ("- Step 1: Load observed data"),
    ("- Step 2: Manually fit observed VES data with 3 layers"),
    ("- Step 3: Run Parametric Inversion"),
    ("- Step 4: Run inversion")],
  .markdown [
    ("## Step 1: Load observed data"),
    (""),
    ("- **filename:** file name for the observed data. The file is a 'csv' file. It must contain columns named 'AB/2 (m)', 'MN/2 (m)' and 'App. Res. (Ohm m)."),
    ("- **load:** When selected, the notebook will try to load the data file")],
  .code [.exprStmt (pc (pa (pn ("dc_app")) ("interact_load_obs")) [] [])],
  .markdown parametricStep2Lines,
  .code [.exprStmt (pc (pa (pn ("dc_app")) ("interact_1d_layer")) [] [])],
  .markdown [
    ("## Step 3: Run Parametric Inversion"),
    (""),
    ("**Assigning Uncertainties**"),
    (""),
    ("The uncertainties are an estimate of the level of noise on your data. If your data have more noise (error bars are larger), you must assign larger uncertainties. The equation for the uncertainty you assign to each data value is:"),
    (""),
    ("$$ \\text\x7buncertainty\x7d = 0.01 \\times \\text\x7bpercentage\x7d\\times|d^\x7bobs\x7d| + \\text\x7bfloor\x7d$$"),
    (""),
    ("The"),
    (""),
    ("- `percentage (%)`: percentage uncertainty"),
    ("- `floor (ohm-m)`: floor uncertainty"),
    (""),
    ("For apparent resistivity data, it is common to choose a percentage between 2%-10%. The floor value is usually something very small; less than 0.0001 $\\Omega m$"),
    (""),
    ("**Inversion Parameters**"),
    (""),
    ("Paramters specific to running the inversion are:"),
    (""),
    ("- $\\rho_0$: initial resistivity model"),
    ("- $h_0$: initial thicknesses of all the layers. The bottom layer has infinite thickness."),
    ("- $n_\x7blayers\x7d$: Number of layers you think there are"),
    ("- `maxIter`: maximum number of iteration (10-30 is ideal)"),
    ("- `run`: run inversion if this is checked"),
    (""),
    ("Here are some things to consider when choosing these parameters:"),
    (""),
    ("- The average resistivity and thickness you used to explain the data in step 2 can be good estimates for $\\rho_0$ and $h_0$"),
    ("- The number of segments in the sounding curve can be used to determine how many layers should be used. Using more layers does not guarantee a better result."),
    ("- If the result does not fit the data, the number of layers could be wrong or the data cannot be explained with a 1D model.")],
  .code [.exprStmt (pc (pa (pn ("dc_app")) ("interact_run_inversion")) [] [])],
  .markdown [
    ("## Step 4: Explore inversion results"),
    ("We can look at the model for each inversion iteration to see how the model is iteratively updated"),
    (""),
    ("- `iteration`: inversion iteration")],
  .code [.exprStmt (pc (pa (pn ("dc_app")) ("interact_plot_inversion_results")) [] [])]]

/-- Second notebook of `src/unnamed/part_000`: smooth 1D DC resistivity
inversion driven by `DC1DInversionApp`. -/
def smoothAppNotebook : Notebook := [
  .markdown [("# Smooth 1D DC Resistivity Inversion")],
  .code [
    .importFrom ("utils.DCResistivity") [(("DC1DInversionApp"), ("DC1DInversionApp"))],
    .assign (pn ("dc_app")) (pc (pn ("DC1DInversionApp")) [] [])],
  .markdown [
    ("# Purpose"),
    (""),
    ("Here, we load DC sounding data (VES format), interpret the data and invert the data to recover a 1D resistivity model. The steps for setting up and running and inversion and explained. The final result of the notebook is a smooth 1D resistivity model that has approximately the same structures as the true geology."),
    (""),
    ("## Outline"),
    ("This notebook is used to complete the following steps:"),
    ("- Step1: Load observed data"),
    ("- Step2: Plot observed data"),
    ("- Step3: Set layer thicknesses"),
    ("- Step4: Set uncertainty"),
    ("- Step5: Run inversion"),
    ("- Step6: Explore inversion results"),
    ("- Step7: Run inversion to compute DOI index"),
    ("- Step8: Plot DOI index")],
  .markdown [
    ("## Step 1: Load observed data"),
    (""),
    ("- **filename:** file name for the observed data. The file is a 'csv' file. It must contain columns named 'AB/2 (m)', 'MN/2 (m)' and 'App. Res. (Ohm m)."),
    ("- **load:** When selected, the notebook will try to load the data file")],
  .code [.exprStmt (pc (pa (pn ("dc_app")) ("interact_load_obs")) [] [])],
  .markdown [
    ("## Step 2: Plot observed data"),
    (""),
    ("- **plot type:** apparent resistivity can be represented by a *sounding curve* or *histogram*."),
    ("- **aspect ratio:** aspect ratio for the plot. This allows you to change the size of the picture.")],
  .code [.exprStmt (pc (pa (pn ("dc_app")) ("interact_plot_obs_data")) [] [])],
  .markdown [
    ("## Step 3: Set a layer thicknesses"),
    (""),
    ("The inversion will recover a resistivity value for each layer you define here. It is important that the number of layers you choose and their thicknesses are appropriate. The adjustable parameters are defined below:"),
    (""),
    ("- **dz_min:** minimum layer thickness (thickness of top layer)"),
    ("- **n_layer:** number of layers"),
    ("- **factor:** geometric factor which we increase thickness with depth"),
    (""),
    ("The following are some things to consider when choosing the number of layers and their thicknesses:"),
    (""),
    ("- The value of *dz_min* should be much smaller than the smallest AB/2 value (5-10 times smaller)"),
    ("- The maximum depth for the layers you define should be at least 2 times larger than your biggest AB/2 value"),
    ("- Most of the time, you can get reasonable results by using between 30-60 layers")],
  .code [.exprStmt (pc (pa (pn ("dc_app")) ("interact_set_mesh")) [] [])],
  .markdown [
    ("## Step 4: Set uncertainty"),
    (""),
    ("The uncertainties are an estimate of the level of noise on your data. If your data have more noise (error bars are larger), you must assign larger uncertainties. The equation for the uncertainty you assign to each data value is:"),
    (""),
    ("$$ \\text\x7buncertainty\x7d = 0.01 \\times \\text\x7bpercentage\x7d\\times|d^\x7bobs\x7d| + \\text\x7bfloor\x7d$$"),
    (""),
    ("- **percentage (%):** percentage uncertainty"),
    ("- **floor (ohm-m):** floor uncertainty"),
    (""),
    ("For apparent resistivity data, it is common to choose a percentage between 2%-10%. The floor value is usually something very small; less than 0.0001 $\\Omega m$")],
  .code [.exprStmt (pc (pa (pn ("dc_app")) ("interact_set_uncertainty")) [] [])],
  .markdown [
    ("## Step 5: Run inversion"),
    (""),
    ("Here, we define parameters necessary to complete the inversion. These parameters are:"),
    (""),
    ("- $\\rho_0$: initial resistivity model"),
    ("- $\\rho_\x7bref\x7d$: reference resistivity model"),
    ("- $\\alpha_s$: controls how much the inversion wants to recover a model similar to the reference model"),
    ("- $\\alpha_z$: controls how much the inversion wants to recover a model that is smooth"),
    ("- `maxIter`: maximum number of iteration (10-20 is ideal"),
    ("- `chifact`: chifactor for the target misfit"),
    ("- `beta0_ratio`: ratio to set the initial beta"),
    ("- `coolingFactor`: cooling factor to cool beta"),
    ("- `n_iter_per_beta`: # of interation for each beta value "),
    ("- `run`: run inversion if this is checked"),
    (""),
    ("Here are some things to consider when choosing these parameters:"),
    (""),
    ("- If you make $\\alpha_s$ much larger than $\\alpha_z$, the inversion will try very hard to give you an answer that is similar to the reference model. If you make $\\alpha_z$ much larger than $\\alpha_s$, the inversion will try very hard to find a smooth model that explains the data. To start, it is good to set $\\alpha_s = 0.01 \\times \\alpha_z$"),
    ("- If you set *coolingFactor* to a number equal or larger than 4, you should set the *n_iter_per_beta* to a value of 2. This makes sure you solve the problem accurately."),
    ("- If the inversion only requires a few iterations, your uncertainties may be too large."),
    ("- If your inversion does not reach *target misfit*, your uncertainties may be too small. The number of layers and their thicknessess may also be incorrect.")],
  .code [.exprStmt (pc (pa (pn ("dc_app")) ("interact_run_inversion")) [] [])],
  .markdown [
    ("## Step 6: Explore inversion results"),
    (""),
    ("- `iteration`: inversion iteration"),
    ("- `curve type`:type of the curve (this is active when `plot type`=`misfit_curve`)"),
    ("- `scale`: linear or log scale (this is active when `plot type`=`misfit_curve`)"),
    ("- `plot type`: type of the plot")],
  .code [.exprStmt (pc (pa (pn ("dc_app")) ("interact_plot_inversion_results")) [] [])],
  .markdown [
    ("## Step 7: Run inversion to compute DOI index"),
    (""),
    ("Depth of investigation (DOI) index can be computed by following equation (Oldenburg and Li, 1999):"),
    (""),
    ("$$ \\text\x7bdoi index\x7d = \\frac\x7bm^1-m^2\x7d\x7bm_\x7bref\x7d^1-m_\x7bref\x7d^2\x7d$$"),
    (""),
    ("where "),
    (""),
    ("- $m^1$: inversion model 1 (from Step5)"),
    ("- $m^2$: inversion model 2 (same inversion parameters with model 1 except for `m0` and `mref`"),
    ("- $m_\x7bref\x7d^1$: reference model 1 (used for Step 5)"),
    ("- $m_\x7bref\x7d^2$: reference model 2 (=$m_\x7bref\x7d^1 \\times$ factor)"),
    (""),
    ("Here a constant factor is multiplied to generate a new reference model. "),
    ("Below app will run inversion to obtain another inversion model ($m^2$), which will allow us to "),
    ("compute DOI index in the following app. "),
    (""),
    ("### Parameters"),
    ("- `factor`: constant factor to compute a new reference model"),
    ("- `run`: if checked, then a new inverion will run")],
  .code [.exprStmt (pc (pa (pn ("dc_app")) ("interact_run_doi")) [] [])],
  .markdown [
    ("##  Step 8: Plot DOI index"),
    (""),
    (""),
    ("- `doi_level`: level of the doi index")],
  .code [.exprStmt (pc (pa (pn ("dc_app")) ("interact_plot_doi_results")) [] [])],
  .code []]

/-- `src/notebooks/DC-1d-smooth-inversion-code.ipynb`: the smooth 1D
inversion written directly against SimPEG / discretize. -/
def smoothCodeNotebook : Notebook := [
  .markdown [
    ("# DC Resistivity: 1D Resistivity Inversion"),
    (""),
    (""),
    ("In this notebook, we:"),
    ("- load Schlumberger sounding data from a text file"),
    ("- plot the raw apparent resistivity data as a function of electrode separation"),
    ("- assign uncertainties to the data"),
    ("- recover an electrical resistivity model for a specified number of layers"),
    ("- plot the recovered resistivity model and compare observed and predicted data"),
    ("")],
  .markdown [("## Import Modules")],
  .code [
    .importAs ("os") ("os"),
    .importAs ("numpy") ("np"),
    .importAs ("matplotlib") ("mpl"),
    .importAs ("matplotlib.pyplot") ("plt"),
    .importAs ("pandas") ("pd"),
    .importFrom ("discretize") [(("TensorMesh"), ("TensorMesh"))],
    .importFrom ("SimPEG") [(("maps"), ("maps")), (("data"), ("data")),
      (("data_misfit"), ("data_misfit")), (("regularization"), ("regularization")),
      (("optimization"), ("optimization")), (("inverse_problem"), ("inverse_problem")),
      (("inversion"), ("inversion")), (("directives"), ("directives"))],
    .importFrom ("SimPEG.electromagnetics.static") [(("resistivity"), ("dc"))],
    .importFrom ("SimPEG.electromagnetics.static.utils.StaticUtils")
      [(("plot_layer"), ("plot_layer"))],
    .importFrom ("SimPEG.utils") [(("mkvc"), ("mkvc"))],
    .exprStmt (pc (pa (pa (pn ("mpl")) ("rcParams")) ("update"))
      [.dictE (pl [(ps ("font.size"), pq 14)])] [])],
  .markdown [
    ("## User Defined Paramters for the Notebook"),
    (""),
    (""),
    ("Here, the user defines paramters required to run the notebook. These parameters are as follows:"),
    ("- **data_filename:** The file path to a csv file containing the sounding data"),
    ("- **half_AB_column:** The column in the csv file that has the AB/2 values."),
    ("- **half_MN_column:** The column in the csv file that has the MN/2 values."),
    ("- **apparent_resistivity_column:** The column in the csv file that has the apparent resistivity values."),
    (""),
    (""),
    ("- **uncertainty_column:** The column in the csv file that has the uncertainty, or the keyword `None`."),
    ("- **uncertainty_floor:** The floor uncertainty to be added to each datum"),
    ("- **uncertainty_percent:** The percent uncertainty to be added to each datum"),
    ("- **chi_factor:** Controls how closely we fit the data in the inversion."),
    (""),
    (""),
    ("- **layer_thicknesses:** Layer thicknesses in meters. Defined from top layer to bottom")],
  .code [
    .comment ("Define the file path to the data file. Also define the AB/2, MN/2 and apparent resistivity columns."),
    .comment ("Recall that python counts starting at 0"),
    .assign (pn ("data_filename")) (ps ("./assets/Mawlamyine_data_locations_3.csv")),
    .assign (pn ("half_AB_column")) (ps ("AB/2 (m)")),
    .assign (pn ("half_MN_column")) (ps ("MN/2 (m)")),
    .assign (pn ("apparent_resistivity_column")) (ps ("App. Res. (Ohm m)")),
    .comment ("Define the uncertainties for the inversion."),
    .comment ("Either use the uncertainty from the data file,"),
    .assign (pn ("uncertainty_column")) .noneE,
    .comment ("or define the floor and percent uncertainty you would like to apply to apparent resistivity data"),
    .assign (pn ("uncertainty_floor")) (pq 5),
    .assign (pn ("uncertainty_percent")) (pq 5),
    .assign (pn ("chi_factor")) (pq 1),
    .comment ("Define layer thicknesses as a numpy array"),
    .assign (pn ("layer_thicknesses"))
      (.binop ("*") (pq 5) (.binop ("**") (pq 1.1) (pc (pa (pn ("np")) ("arange")) [pq 21] []))),
    .assign (pn ("halfspace_resistivity")) (pq 300)],
  .markdown [
    ("## Load Data, Define Survey and Plot"),
    (""),
    ("Here we load the observed data, define the DC survey geometry and plot the"),
    ("data values.")],
  .code [
    .comment ("Load data"),
    .assign (pn ("df")) (pc (pa (pn ("pd")) ("read_csv")) [pn ("data_filename")] []),
    .comment ("Extract source and receiver electrode locations and the observed data"),
    .assign (pn ("half_AB_separations")) (.subscript (pn ("df")) (pn ("half_AB_column"))),
    .assign (pn ("half_MN_separations")) (.subscript (pn ("df")) (pn ("half_MN_column"))),
    .assign (pn ("dobs")) (pa (.subscript (pn ("df")) (pn ("apparent_resistivity_column"))) ("values")),
    .comment ("Define survey"),
    .assign (.tupleE (el [pn ("unique_tx"), pn ("k")]))
      (pc (pa (pn ("np")) ("unique")) [pn ("half_AB_separations")] [(("return_index"), .boolE true)]),
    .assign (pn ("n_sources")) (pc (pn ("len")) [pn ("k")] []),
    .assign (pn ("k")) (pc (pa (pn ("np")) ("sort")) [pn ("k")] []),
    .assign (pn ("k")) (.subscript (pa (pn ("np")) ("r_"))
      (.tupleE (el [pn ("k"), .binop ("+") (pc (pn ("len")) [pn ("dobs")] []) (pq 1)]))),
    .assign (pn ("source_list")) (.listE (el [])),
    .forLoop ("ii") (pc (pn ("range")) [pq 0, pn ("n_sources")] []) (sl [
      .comment ("MN electrode locations for receivers. Each is an (N, 3) numpy array"),
      .assign (pn ("M_locations")) (.unop ("-") (.sliceE (pn ("half_MN_separations"))
        (.subscript (pn ("k")) (pn ("ii")))
        (.subscript (pn ("k")) (.binop ("+") (pn ("ii")) (pq 1))))),
      .assign (pn ("M_locations")) (.subscript (pa (pn ("np")) ("c_"))
        (.tupleE (el [pn ("M_locations"), pc (pa (pn ("np")) ("zeros"))
          [.tupleE (el [.subscript (pc (pa (pn ("np")) ("shape")) [pn ("M_locations")] []) (pq 0), pq 2])] []]))),
      .assign (pn ("N_locations")) (.sliceE (pn ("half_MN_separations"))
        (.subscript (pn ("k")) (pn ("ii")))
        (.subscript (pn ("k")) (.binop ("+") (pn ("ii")) (pq 1)))),
      .assign (pn ("N_locations")) (.subscript (pa (pn ("np")) ("c_"))
        (.tupleE (el [pn ("N_locations"), pc (pa (pn ("np")) ("zeros"))
          [.tupleE (el [.subscript (pc (pa (pn ("np")) ("shape")) [pn ("N_locations")] []) (pq 0), pq 2])] []]))),
      .assign (pn ("receiver_list"))
        (.listE (el [pc (pa (pa (pn ("dc")) ("receivers")) ("Dipole"))
          [pn ("M_locations"), pn ("N_locations")] []])),
      .comment ("AB electrode locations for source. Each is a (1, 3) numpy array"),
      .assign (pn ("A_location")) (.subscript (pa (pn ("np")) ("r_"))
        (.tupleE (el [.unop ("-") (.subscript (pn ("half_AB_separations")) (.subscript (pn ("k")) (pn ("ii")))), pq 0, pq 0]))),
      .assign (pn ("B_location")) (.subscript (pa (pn ("np")) ("r_"))
        (.tupleE (el [.subscript (pn ("half_AB_separations")) (.subscript (pn ("k")) (pn ("ii"))), pq 0, pq 0]))),
      .exprStmt (pc (pa (pn ("source_list")) ("append"))
        [pc (pa (pa (pn ("dc")) ("sources")) ("Dipole"))
          [pn ("receiver_list"), pn ("A_location"), pn ("B_location")] []] [])]),
    .comment ("Define survey"),
    .assign (pn ("survey")) (pc (pa (pn ("dc")) ("Survey")) [pn ("source_list")] []),
    .comment ("Compute the A, B, M and N electrode locations."),
    .exprStmt (pc (pa (pn ("survey")) ("getABMN_locations")) [] []),
    .comment ("Plot apparent resistivities on sounding curve as a function of Wenner separation"),
    .comment ("parameter."),
    .assign (pn ("electrode_separations")) (pc (pa (pn ("np")) ("sqrt"))
      [pc (pa (pn ("np")) ("sum"))
        [.binop ("**") (.binop ("-") (pa (pn ("survey")) ("m_locations")) (pa (pn ("survey")) ("n_locations"))) (pq 2)]
        [(("axis"), pq 1)]] []),
    .assign (.tupleE (el [pn ("fig"), pn ("ax")]))
      (pc (pa (pn ("plt")) ("subplots")) [pq 1, pq 1] [(("figsize"), .tupleE (el [pq 11, pq 5]))]),
    .exprStmt (pc (pa (pn ("ax")) ("loglog")) [pn ("half_AB_separations"), pn ("dobs"), ps ("b")] [(("lw"), pq 2)]),
    .exprStmt (pc (pa (pn ("ax")) ("set_xlabel")) [ps ("AB/2 (m)")] []),
    .exprStmt (pc (pa (pn ("ax")) ("set_ylabel")) [ps ("Apparent Resistivity ($\\Omega m$)")] []),
    .exprStmt (pc (pa (pn ("ax")) ("grid")) [.boolE true]
      [(("which"), ps ("both")), (("ls"), ps ("--")), (("c"), ps ("gray"))])],
  .markdown [
    ("## Assign Uncertainties"),
    (""),
    ("Inversion with SimPEG requires that we define uncertainties on our data. The"),
    ("uncertainty represents our estimate of the standard deviation of the noise on"),
    ("our data.")],
  .code [
    .ifElse (.binop ("is not") (pn ("uncertainty_column")) .noneE)
      (sl [.assign (pn ("uncertainties"))
        (pa (.subscript (pn ("df")) (pn ("uncertainty_column"))) ("values"))])
      (sl [.assign (pn ("uncertainties"))
        (.binop ("+") (pn ("uncertainty_floor"))
          (.binop ("*") (.binop ("*") (pq 0.01) (pn ("uncertainty_percent")))
            (pc (pa (pn ("np")) ("abs")) [pn ("dobs")] [])))])],
  .markdown [
    ("## Define Data"),
    (""),
    ("Here is where we define the data that are inverted. The data are defined by"),
    ("the survey, the observation values and the uncertainties.")],
  .code [
    .assign (pn ("data_object")) (pc (pa (pn ("data")) ("Data")) [pn ("survey")]
      [(("dobs"), pn ("dobs")), (("uncertainty"), pn ("uncertainties"))])],
  .markdown [
    ("## Define a Starting and Reference Model"),
    (""),
    ("Here, we create starting and/or reference models for the inversion as"),
    ("well as the mapping from the model space to the active cells. Starting and"),
    ("reference models can be a constant background value or contain a-priori"),
    ("structures. Here, the starting model is log(1000) Ohm meters."),
    (""),
    ("Define log-resistivity values for each layer since our model is the"),
    ("log-resistivity. Don't make the values 0!"),
    ("Otherwise the gradient for the 1st iteration is zero and the inversion will"),
    ("not converge.")],
  .code [
    .comment ("Defines layered Earth"),
    .assign (pn ("mesh")) (pc (pn ("TensorMesh"))
      [.listE (el [.subscript (pa (pn ("np")) ("r_"))
        (.tupleE (el [pn ("layer_thicknesses"),
          .subscript (pn ("layer_thicknesses")) (.unop ("-") (pq 1))]))]), ps ("0")] []),
    .comment ("Define model. A resistivity (Ohm meters) or conductivity (S/m) for each layer."),
    .assign (pn ("starting_model")) (.binop ("*")
      (pc (pa (pn ("np")) ("log")) [pn ("halfspace_resistivity")] [])
      (pc (pa (pn ("np")) ("ones")) [pa (pn ("mesh")) ("nC")] [])),
    .comment ("Define mapping from model to active cells."),
    .assign (pn ("model_map")) (.binop ("*")
      (pc (pa (pn ("maps")) ("IdentityMap")) [pn ("mesh")] [])
      (pc (pa (pn ("maps")) ("ExpMap")) [] []))],
  .markdown [
    ("## Define the Physics"),
    (""),
    ("Here we define the physics of the problem using the DCSimulation_1D class.")],
  .code [
    .assign (pn ("simulation")) (pc (pa (pa (pn ("dc")) ("simulation_1d")) ("DCSimulation_1D")) []
      [(("survey"), pn ("survey")), (("rhoMap"), pn ("model_map")),
       (("thicknesses"), pn ("layer_thicknesses")),
       (("data_type"), ps ("apparent_resistivity"))])],
  .markdown [
    ("## Define Inverse Problem"),
    (""),
    ("The inverse problem is defined by 3 things:"),
    (""),
    ("    1) Data Misfit: a measure of how well our recovered model explains the field data"),
    ("    2) Regularization: constraints placed on the recovered model and a priori information"),
    ("    3) Optimization: the numerical approach used to solve the inverse problem"),
    ("")],
  .code [
    .comment ("Define the data misfit. Here the data misfit is the L2 norm of the weighted"),
    .comment ("residual between the observed data and the data predicted for a given model."),
    .comment ("The weighting is defined by the reciprocal of the uncertainties."),
    .assign (pn ("dmis")) (pc (pa (pn ("data_misfit")) ("L2DataMisfit")) []
      [(("simulation"), pn ("simulation")), (("data"), pn ("data_object"))]),
    .comment ("Define the regularization (model objective function)"),
    .assign (pn ("reg")) (pc (pa (pn ("regularization")) ("Simple")) [pn ("mesh")]
      [(("alpha_s"), pq 0.001), (("alpha_x"), pq 1), (("mref"), pn ("starting_model"))]),
    .comment ("Create model weights based on sensitivity matrix (sensitivity weighting). This is"),
    .comment ("done to counteract the inversion's desire to place structures only at regions"),
    .comment ("of very high sensitivity."),
    .comment ("wr = np.sum(simulation.getJ(starting_model)**2, axis=0)**0.5"),
    .comment ("wr = (wr/np.max(np.abs(wr)))"),
    .comment ("reg.cell_weights = wr  # include in regularization"),
    .comment ("Define how the optimization problem is solved. Here we will use an inexact"),
    .comment ("Gauss-Newton approach that employs the conjugate gradient solver."),
    .assign (pn ("opt")) (pc (pa (pn ("optimization")) ("InexactGaussNewton")) []
      [(("maxIter"), pq 30), (("maxIterCG"), pq 20), (("print_type"), ps ("ubc"))]),
    .comment ("Define the inverse problem"),
    .assign (pn ("inv_prob")) (pc (pa (pn ("inverse_problem")) ("BaseInvProblem"))
      [pn ("dmis"), pn ("reg"), pn ("opt")] [])],
  .markdown [
    ("## Define Inversion Directives"),
    (""),
    ("Here we define any directives that are carried out during the inversion. This"),
    ("includes the cooling schedule for the trade-off parameter (beta), stopping"),
    ("criteria for the inversion and saving inversion results at each iteration."),
    ("")],
  .code [
    .assign (pn ("starting_resistivity")) (pn ("starting_model")),
    .exprStmt (pc (pn ("print")) [pc (pa (pn ("np")) ("exp")) [pn ("starting_resistivity")] []] [])],
  .code [
    .comment ("Defining a starting value for the trade-off parameter (beta) between the data"),
    .comment ("misfit and the regularization."),
    .assign (pn ("starting_beta")) (pc (pa (pn ("directives")) ("BetaEstimate_ByEig")) []
      [(("beta0_ratio"), pq 1)]),
    .comment ("Set the rate of reduction in trade-off parameter (beta) each time the"),
    .comment ("the inverse problem is solved. And set the number of Gauss-Newton iterations"),
    .comment ("for each trade-off paramter value."),
    .assign (pn ("beta_schedule")) (pc (pa (pn ("directives")) ("BetaSchedule")) []
      [(("coolingFactor"), pq 2), (("coolingRate"), pq 1)]),
    .comment ("Apply and update sensitivity weighting as the model updates"),
    .assign (pn ("update_sensitivity_weights"))
      (pc (pa (pn ("directives")) ("UpdateSensitivityWeights")) [] []),
    .comment ("Options for outputting recovered models and predicted data for each beta."),
    .assign (pn ("save_iteration"))
      (pc (pa (pn ("directives")) ("SaveOutputDictEveryIteration")) [] []),
    .comment ("Setting a stopping criteria for the inversion."),
    .assign (pn ("target_misfit")) (pc (pa (pn ("directives")) ("TargetMisfit")) []
      [(("chifact"), pq 1)]),
    .comment ("The directives are defined as a list."),
    .assign (pn ("directives_list")) (.listE (el [pn ("starting_beta"), pn ("beta_schedule"),
      pn ("save_iteration"), pn ("target_misfit")]))],
  .markdown [
    ("## Running the Inversion"),
    (""),
    ("To define the inversion object, we need to define the inversion problem and"),
    ("the set of directives. We can then run the inversion."),
    (""),
    ("")],
  .code [
    .comment ("Here we combine the inverse problem and the set of directives"),
    .assign (pn ("inv")) (pc (pa (pn ("inversion")) ("BaseInversion"))
      [pn ("inv_prob"), pn ("directives_list")] []),
    .comment ("Run the inversion"),
    .assign (pn ("recovered_model")) (pc (pa (pn ("inv")) ("run")) [pn ("starting_model")] [])],
  .code [
    .comment ("Inversion result from Mon DRD"),
    .assign (pn ("res_tmp")) (pc (pa (pn ("np")) ("array"))
      [.listE (el [pq 348.4, pq 722.9, pq 282, pq 100.8, pq 51.4, pq 170.8, pq 31.1, pq 184.3])] []),
    .assign (pn ("thick_tmp")) (pc (pa (pn ("np")) ("array"))
      [.listE (el [pq 1.4, pq 1.6, pq 1.4, pq 12.1, pq 11.4, pq 25.1, pq 54.2])] []),
    .assign (pn ("plotting_mesh_tmp")) (pc (pn ("TensorMesh"))
      [.listE (el [.subscript (pa (pn ("np")) ("r_")) (.tupleE (el [pn ("thick_tmp"), pq 200]))]),
       ps ("0")] [])],
  .markdown [
    ("## Examining the Results"),
    ("")],
  .code [
    .comment ("Plot recovered model"),
    .assign (.tupleE (el [pn ("fig"), pn ("ax")]))
      (pc (pa (pn ("plt")) ("subplots")) [pq 1, pq 1] [(("figsize"), .tupleE (el [pq 5, pq 5]))]),
    .assign (pn ("x_min")) (pc (pa (pn ("np")) ("min"))
      [.binop ("*") (pn ("model_map")) (pn ("recovered_model"))] []),
    .assign (pn ("x_max")) (pc (pa (pn ("np")) ("max"))
      [.binop ("*") (pn ("model_map")) (pn ("recovered_model"))] []),
    .exprStmt (pc (pn ("plot_layer"))
      [.binop ("*") (pn ("model_map")) (pn ("recovered_model")), pn ("mesh")]
      [(("ax"), pn ("ax")), (("depth_axis"), .boolE false)]),
    .exprStmt (pc (pa (pn ("ax")) ("set_ylim")) [.unop ("-") (pq 300), pq 0] []),
    .exprStmt (pc (pa (pn ("ax")) ("set_xlim")) [pq 10, pq 5000] []),
    .exprStmt (pc (pa (pn ("ax")) ("grid")) [.boolE true]
      [(("which"), ps ("both")), (("ls"), ps ("--")), (("c"), ps ("gray"))])],
  .code [
    .comment ("Plot the true and apparent resistivities on a sounding curve"),
    .assign (.tupleE (el [pn ("fig"), pn ("ax")]))
      (pc (pa (pn ("plt")) ("subplots")) [pq 1, pq 1] [(("figsize"), .tupleE (el [pq 7, pq 5]))]),
    .exprStmt (pc (pa (pn ("ax")) ("loglog"))
      [pn ("half_AB_separations"), pa (pn ("inv_prob")) ("dpred"), ps ("k")] [(("lw"), pq 2)]),
    .exprStmt (pc (pa (pn ("ax")) ("loglog"))
      [pn ("half_AB_separations"), pn ("dobs"), ps ("kx")]
      [(("lw"), pq 2), (("ms"), pq 10), (("mew"), pq 2)]),
    .exprStmt (pc (pa (pn ("ax")) ("set_xlabel")) [ps ("AB/2 (m)")] []),
    .exprStmt (pc (pa (pn ("ax")) ("set_ylabel")) [ps ("Apparent Resistivity ($\\Omega m$)")] []),
    .exprStmt (pc (pa (pn ("ax")) ("legend"))
      [.listE (el [ps ("Observed Sounding Curve"), ps ("Predicted Sounding Curve")])] []),
    .exprStmt (pc (pa (pn ("ax")) ("set_ylim")) [pq 50, pq 1000] []),
    .exprStmt (pc (pa (pn ("ax")) ("grid")) [.boolE true]
      [(("which"), ps ("both")), (("ls"), ps ("--")), (("c"), ps ("gray"))])],
  .code [
    .comment ("Plot true model and recovered model"),
    .assign (.tupleE (el [pn ("fig"), pn ("ax")]))
      (pc (pa (pn ("plt")) ("subplots")) [pq 1, pq 1] [(("figsize"), .tupleE (el [pq 5, pq 5]))]),
    .assign (pn ("x_min")) (pc (pa (pn ("np")) ("min"))
      [.binop ("*") (pn ("model_map")) (pn ("recovered_model"))] []),
    .assign (pn ("x_max")) (pc (pa (pn ("np")) ("max"))
      [.binop ("*") (pn ("model_map")) (pn ("recovered_model"))] []),
    .exprStmt (pc (pn ("plot_layer"))
      [.binop ("*") (pn ("model_map")) (pn ("recovered_model")), pn ("mesh")]
      [(("ax"), pn ("ax")), (("depth_axis"), .boolE false)]),
    .exprStmt (pc (pn ("plot_layer")) [pn ("res_tmp"), pn ("plotting_mesh_tmp")]
      [(("ax"), pn ("ax")), (("depth_axis"), .boolE false), (("color"), ps ("r"))]),
    .exprStmt (pc (pa (pn ("ax")) ("legend"))
      [.tupleE (el [ps ("SimPEG"), ps ("Mon State DRD")])] []),
    .exprStmt (pc (pa (pn ("ax")) ("grid")) [.boolE true]
      [(("which"), ps ("both")), (("ls"), ps ("--")), (("c"), ps ("gray"))]),
    .exprStmt (pc (pa (pn ("ax")) ("set_ylim")) [.unop ("-") (pq 300), pq 0] []),
    .exprStmt (pc (pa (pn ("ax")) ("set_xlim")) [pq 10, pq 5000] [])],
  .code [
    .assign (pn ("n_interation")) (pc (pn ("len")) [pa (pn ("save_iteration")) ("outDict")] []),
    .assign (pn ("phi_d")) (pc (pa (pn ("np")) ("zeros")) [pn ("n_interation")] []),
    .assign (pn ("phi_m")) (pc (pa (pn ("np")) ("zeros")) [pn ("n_interation")] []),
    .forLoop ("ii") (pc (pn ("range")) [pq 1, .binop ("+") (pn ("n_interation")) (pq 1)] []) (sl [
      .assign (.subscript (pn ("phi_d")) (.binop ("-") (pn ("ii")) (pq 1)))
        (.subscript (.subscript (pa (pn ("save_iteration")) ("outDict")) (pn ("ii"))) (ps ("phi_d"))),
      .assign (.subscript (pn ("phi_m")) (.binop ("-") (pn ("ii")) (pq 1)))
        (.subscript (.subscript (pa (pn ("save_iteration")) ("outDict")) (pn ("ii"))) (ps ("phi_m")))]),
    .assign (.tupleE (el [pn ("fig"), pn ("ax")]))
      (pc (pa (pn ("plt")) ("subplots")) [pq 1, pq 2] [(("figsize"), .tupleE (el [pq 12, pq 5]))]),
    .exprStmt (pc (pa (.subscript (pn ("ax")) (pq 0)) ("plot"))
      [.binop ("+") (pc (pa (pn ("np")) ("arange")) [pn ("n_interation")] []) (pq 1),
       pn ("phi_d"), ps ("ko-")] []),
    .assign (pn ("ax_1")) (pc (pa (.subscript (pn ("ax")) (pq 0)) ("twinx")) [] []),
    .exprStmt (pc (pa (pn ("ax_1")) ("plot"))
      [.binop ("+") (pc (pa (pn ("np")) ("arange")) [pn ("n_interation")] []) (pq 1),
       pn ("phi_m"), ps ("ro-")] []),
    .exprStmt (pc (pa (.subscript (pn ("ax")) (pq 0)) ("set_xlabel")) [ps ("Iteration")] []),
    .exprStmt (pc (pa (.subscript (pn ("ax")) (pq 0)) ("set_ylabel")) [ps ("$\\phi_d$")]
      [(("fontsize"), pq 20)]),
    .exprStmt (pc (pa (pn ("ax_1")) ("set_ylabel")) [ps ("$\\phi_m$")]
      [(("fontsize"), pq 20), (("color"), ps ("r"))]),
    .exprStmt (pc (pa (.subscript (pn ("ax")) (pq 1)) ("plot"))
      [pn ("phi_m"), pn ("phi_d"), ps ("ko-")] []),
    .exprStmt (pc (pa (.subscript (pn ("ax")) (pq 1)) ("set_ylabel")) [ps ("$\\phi_d$")]
      [(("fontsize"), pq 20)]),
    .exprStmt (pc (pa (.subscript (pn ("ax")) (pq 1)) ("set_xlabel")) [ps ("$\\phi_m$")]
      [(("fontsize"), pq 20)]),
    .exprStmt (pc (pa (pn ("plt")) ("tight_layout")) [] [])],
  .code []]

/-- `src/notebooks/DC-layered-cylinder.ipynb`: visualization of fields around
a cylinder in a layered earth, via the `ResLayer_app` widget app. -/
def layeredCylinderNotebook : Notebook := [
  .markdown [
    ("# DC Layered Cylinder"),
    (""),
    ("Simulate a DC resistivity sounding over a cylinder in a layered earth. ")],
  .code [
    .importFrom ("utils.DCWidgetResLayer2_5D") [(("ResLayer_app"), ("ResLayer_app"))],
    .importFrom ("IPython.display") [(("display"), ("display"))],
    .magic ("%matplotlib inline"),
    .importFrom ("matplotlib") [(("rcParams"), ("rcParams"))],
    .assign (.subscript (pn ("rcParams")) (ps ("font.size"))) (pq 16)],
  .markdown [
    ("## Purpose "),
    (""),
    ("For a direct current resistivity (DCR) survey, currents are injected to the earth, and flow. "),
    ("Depending upon the conductivity contrast current flow in the earth will be distorted, and these changes "),
    ("can be measurable on the sufurface electrodes. "),
    ("Here, we focus on a cylinder target embedded in a halfspace below a highly resistive surface layer, and investigate what are happening in the earth when static currents are injected. Different from a sphere case, which is a finite target, the resistive layer will also impact the illumination of the target (conductor or resistor)."),
    ("By investigating changes in currents, electric fields, potential, and charges upon different geometry, Tx and Rx location, we understand geometric effects of the resistive layer for DCR survey. ")],
  .markdown [("## Setup")],
  .markdown [("<img src=\"https://github.com/geoscixyz/geosci-labs/blob/master/images/em/DC_ResLayer_Setup.png?raw=true\"> </img>")],
  .markdown [
    ("## Question"),
    (""),
    ("- How does the cylinder affect the apparent resistivity without the resistive layer?"),
    ("- How does the resistive layer affect the apparent resistivity? Is there a difference if you add or remove the cylinder target?")],
  .markdown [("## Simulate a cylinder in a layered space")],
  .markdown [
    (" - **survey**: Type of survey"),
    (" - **A**: Electrode A (+) location"),
    (" - **B**: Electrode B (-) location"),
    (" - **M**: Electrode A (+) location"),
    (" - **N**: Electrode B (-) location"),
    (" - **$h_0$**: thickness of the top layer"),
    (" - **$h_\x7b1\x7d$**: thickness of the middle layer"),
    (" - **xc**: x location of cylinder center"),
    (" - **zc**: z location of cylinder center"),
    (" - **$\\rho_\x7b1\x7d$**: Resistivity of the half-space"),
    (" - **$\\rho_\x7b2\x7d$**: Resistivity of the layer"),
    (" - **$\\rho_\x7bcyl\x7d$**: Resistivity of the cylinder"),
    (" - **Field**: Field to visualize"),
    (" - **Type**: which part of the field"),
    (" - **Scale**: Linear or Log Scale visualization"),
    (" "),
    ("###  **Do not forget to hit Run Interact to update the figure after you made modifications**")],
  .code [.assign (pn ("app")) (pc (pn ("ResLayer_app")) [] [])],
  .code []]

/-- `src/notebooks/DC-plot-sounding-data.ipynb`: plotting of Schlumberger
sounding data with pandas / matplotlib only. -/
def plotSoundingNotebook : Notebook := [
  .markdown [
    ("# Plotting Schlumberger Sounding Data"),
    (""),
    ("This notebook will allow you to:"),
    ("- Load basic text files containing sounding data"),
    ("- Plot the apparent resistivities as a function of electrode spacing for one or multiple sites"),
    (""),
    ("By examining the apparent resistivity curves as a function of electrode spacing, we can get a sense as to how the electrical resistivity of the Earth changes with depth. We can also see how the resistivity profile changes from one location to another."),
    (""),
    ("## Import Modules")],
  .code [
    .importAs ("numpy") ("np"),
    .importAs ("pandas") ("pd"),
    .importAs ("matplotlib") ("mpl"),
    .importAs ("matplotlib.pyplot") ("plt"),
    .exprStmt (pc (pa (pa (pn ("mpl")) ("rcParams")) ("update"))
      [.dictE (pl [(ps ("font.size"), pq 14)])] [])],
  .markdown [
    ("## User Defined Parameters for the Notebook"),
    (""),
    ("In the cell below, the user defines the parameters needed to run the notebook. These parameters are as follows:"),
    ("- **data_filenames:** The path to the text file that contains the sounding data. To plot multiple locations at once, place the file paths in a list."),
    ("- **half_AB_column:** The column in the text file that has the AB/2 values. Remember that in python, 0 is the 1st column"),
    ("- **half_MN_column:** The column in the text file that has the MN/2 values. Remember that in python, 0 is the 1st column"),
    ("- **apparent_resistivity_column:** The column in the text file that has the apparent resistivity values")],
  .code [
    .comment ("Define the file path to the data file. Also define the AB/2, MN/2 and apparent resistivity columns."),
    .comment ("Recall that python counts starting at 0"),
    .assign (pn ("data_filenames")) (.listE (el [
      ps ("./assets/Mawlamyaing_data_locations_1.csv"),
      ps ("./assets/Mawlamyaing_data_locations_2.csv"),
      ps ("./assets/Mawlamyaing_data_locations_3.csv"),
      ps ("./assets/Mawlamyaing_data_locations_4.csv")])),
    .comment ("Can be string or list of strings"),
    .assign (pn ("half_AB_column")) (ps ("AB/2 (m)")),
    .assign (pn ("half_MN_column")) (ps ("MN/2 (m)")),
    .assign (pn ("apparent_resistivity_column")) (.listE (el [ps ("App. Res. (Ohm m)")]))],
  .markdown [
    ("## Plotting Apparent Resistivity Curves"),
    (""),
    ("The commands entered in the cell below will loop over the list of text files, load the data, and plot the apparent resistivity curves on a log-log plot.")],
  .code [
    .ifElse (pc (pn ("isinstance")) [pn ("data_filenames"), pn ("str")] [])
      (sl [.assign (pn ("data_filenames")) (.listE (el [pn ("data_filenames")]))])
      (sl []),
    .assign (.tupleE (el [pn ("fig"), pn ("ax")]))
      (pc (pa (pn ("plt")) ("subplots")) [pq 1, pq 1] [(("figsize"), .tupleE (el [pq 11, pq 7]))]),
    .forLoop ("ii") (pc (pn ("range")) [pq 0, pc (pn ("len")) [pn ("data_filenames")] []] []) (sl [
      .comment ("Load data"),
      .assign (pn ("df")) (pc (pa (pn ("pd")) ("read_csv"))
        [.subscript (pn ("data_filenames")) (pn ("ii"))] []),
      .comment ("Extract source and receiver electrode locations and the observed data"),
      .assign (pn ("half_AB_separations")) (.subscript (pn ("df")) (pn ("half_AB_column"))),
      .assign (pn ("half_MN_separations")) (.subscript (pn ("df")) (pn ("half_MN_column"))),
      .assign (pn ("dobs")) (.subscript (pn ("df")) (pn ("apparent_resistivity_column"))),
      .exprStmt (pc (pa (pn ("ax")) ("loglog")) [pn ("half_AB_separations"), pn ("dobs")]
        [(("lw"), pq 2)])]),
    .exprStmt (pc (pa (pn ("ax")) ("set_xlabel")) [ps ("AB/2 (m)")] []),
    .exprStmt (pc (pa (pn ("ax")) ("set_ylabel")) [ps ("Apparent Resistivity ($\\Omega m$)")] []),
    .exprStmt (pc (pa (pn ("ax")) ("legend")) [pn ("data_filenames")] []),
    .exprStmt (pc (pa (pn ("ax")) ("grid")) [.boolE true]
      [(("which"), ps ("both")), (("ls"), ps ("--")), (("c"), ps ("gray"))])]]

/-- All five notebooks of the repository, with their file names (the two
notebooks inside `src/unnamed/part_000` have no recorded file name). -/
def allNotebooks : List (String × Notebook) := [
  (("part_000:parametric-inversion"), parametricNotebook),
  (("part_000:smooth-app-inversion"), smoothAppNotebook),
  (("DC-1d-smooth-inversion-code.ipynb"), smoothCodeNotebook),
  (("DC-layered-cylinder.ipynb"), layeredCylinderNotebook),
  (("DC-plot-sounding-data.ipynb"), plotSoundingNotebook)]

/-! ## Executable semantics of the survey-construction loop

The cell `Load Data, Define Survey and Plot` of
`DC-1d-smooth-inversion-code.ipynb` computes

  unique_tx, k = np.unique(half_AB_separations, return_index=True)
  n_sources = len(k)
  k = np.sort(k)
  k = np.r_[k, len(dobs)+1]

and then, for `ii in range(0, n_sources)`, slices the row-aligned columns
as `half_MN_separations[k[ii]:k[ii+1]]`.  We model the rows of the data
file by the list `ab` of AB/2 values and an arbitrary row-aligned column
`d` (the MN/2 values or the observed data). -/

/-- Python / numpy slice `xs[a:b]` for nonnegative bounds: clamps `a` and
`b` to the length and yields `[]` when `a ≥ b`. -/
def pySlice {α : Type} (xs : List α) (a b : Nat) : List α := (xs.take b).drop a

/-- First occurrences of the distinct values of a list, in order of first
appearance. -/
def firstDedup (xs : List ℚ) : List ℚ :=
  xs.foldl (fun acc x => if acc.contains x then acc else acc ++ [x]) []

/-- The sorted distinct values of `xs`: the first component of
`np.unique(xs, return_index=True)`. -/
def npUnique (xs : List ℚ) : List ℚ := List.insertionSort (· ≤ ·) (firstDedup xs)

/-- The index array returned by `np.unique(xs, return_index=True)`: for each
distinct value (in sorted order) the index of its first occurrence in `xs`. -/
def npUniqueIdx (xs : List ℚ) : List Nat := (npUnique xs).map (fun v => xs.indexOf v)

/-- `n_sources = len(k)`, taken before `k` is sorted and extended. -/
def nSources (xs : List ℚ) : Nat := (npUniqueIdx xs).length

/-- The final slice-boundary array `k`: the sorted first-occurrence indices
with `len(dobs)+1` appended (`k = np.r_[np.sort(k), len(dobs)+1]`). -/
def kArray (xs : List ℚ) : List Nat :=
  List.insertionSort (· ≤ ·) (npUniqueIdx xs) ++ [xs.length + 1]

/-- The receiver block of each source: for `ii in range(0, n_sources)` the
slice `d[k[ii]:k[ii+1]]` of a row-aligned column `d`. -/
def receiverBlocks {α : Type} (ab : List ℚ) (d : List α) : List (List α) :=
  (List.range (nSources ab)).map
    (fun ii => pySlice d ((kArray ab).getD ii 0) ((kArray ab).getD (ii + 1) 0))

/-- Rows with equal AB/2 values are contiguous: whenever two rows carry the
same AB/2 value, every row between them carries it as well. -/
def contiguousAB (ab : List ℚ) : Prop :=
  ∀ i j l : Fin ab.length, i ≤ j → j ≤ l → ab.get i = ab.get l → ab.get i = ab.get j

instance (ab : List ℚ) : Decidable (contiguousAB ab) := by
  unfold contiguousAB; infer_instance

/-- Slices of `d` between consecutive entries of a boundary list. -/
def sliceChunks {α : Type} (d : List α) : List Nat → List (List α)
  | a :: b :: rest => pySlice d a b :: sliceChunks d (b :: rest)
  | _ => []

/-- The last entry of a nonempty boundary list (0 for the empty list). -/
def lastBound : List Nat → Nat
  | [] => 0
  | [a] => a
  | _ :: rest => lastBound rest

/-! ## Executable semantics of the uncertainty assignment

The cell `Assign Uncertainties` of `DC-1d-smooth-inversion-code.ipynb`:

  if uncertainty_column is not None:
      uncertainties = df[uncertainty_column].values
  else:
      uncertainties = uncertainty_floor + 0.01*uncertainty_percent*np.abs(dobs)

with, from the parameter cell, `uncertainty_column = None`,
`uncertainty_floor = 5.` and `uncertainty_percent = 5.`. -/

/-- The data frame is modelled as a map from column names to columns. -/
def uncertaintiesOf (df : String → List ℚ) (col : Option String)
    (ufloor upercent : ℚ) (dobs : List ℚ) : List ℚ :=
  match col with
  | some c => df c
  | none => dobs.map (fun x => ufloor + 0.01 * upercent * |x|)

/-- `uncertainty_column = None` in the parameter cell. -/
def uncertainty_column : Option String := none

/-- `uncertainty_floor = 5.` in the parameter cell. -/
def uncertainty_floor : ℚ := 5

/-- `uncertainty_percent = 5.` in the parameter cell. -/
def uncertainty_percent : ℚ := 5

/-- The names bound in `DC-1d-smooth-inversion-code.ipynb` that stand for the
numerical machinery listed by the specification: mesh discretization
(`TensorMesh`), DC forward simulation (`dc`), model mappings (`maps`), data
misfit, regularization, Gauss-Newton / CG optimization, the inverse problem,
the inversion driver and its directives (sensitivity weighting, cooling). -/
def machineryIdents : List String := [
  ("TensorMesh"), ("dc"), ("maps"), ("data_misfit"), ("regularization"),
  ("optimization"), ("inverse_problem"), ("inversion"), ("directives")]

/-- Statements of the layered-cylinder notebook that are mere setup (imports,
the matplotlib magic, a font-size setting, comments) or the single
instantiation of the `ResLayer_app` widget app. -/
def layeredSetupOrApp : PyStmt → Bool
  | .importAs _ _ => true
  | .importFrom _ _ => true
  | .magic _ => true
  | .comment _ => true
  | .assign (.subscript (.nameE s) (.strE f)) (.numE _) => s == ("rcParams") && f == ("font.size")
  | .assign (.nameE _) (.call (.nameE f) .nil .nil) => f == ("ResLayer_app")
  | _ => false

/-! ## Lemmas about the survey-construction semantics -/

theorem pySlice_self {α : Type} (d : List α) (a : Nat) : pySlice d a a = [] := by
  apply List.drop_eq_nil_of_le
  rw [List.length_take]
  exact Nat.min_le_left _ _

theorem pySlice_glue {α : Type} (d : List α) (a b c : Nat) (hab : a ≤ b) (hbc : b ≤ c) :
    pySlice d a b ++ pySlice d b c = pySlice d a c := by
  unfold pySlice
  have hsplit : d.take c = d.take b ++ (d.take c).drop b := by
    rw [show d.take b = (d.take c).take b by rw [List.take_take, Nat.min_eq_left hbc]]
    exact (List.take_append_drop b (d.take c)).symm
  conv_rhs => rw [hsplit]
  rw [List.drop_append_eq_append_drop]
  congr 1
  rcases le_or_lt a (d.take b).length with h | h
  · rw [Nat.sub_eq_zero_of_le h, List.drop_zero]
  · have hlt : d.length < a := by
      have := List.length_take b d
      omega
    have h1 : (d.take c).drop b = [] := by
      apply List.drop_eq_nil_of_le
      rw [List.length_take]
      omega
    rw [h1]
    simp


theorem lastBound_append (l : List Nat) (x : Nat) : lastBound (l ++ [x]) = x := by
  induction l with
  | nil => rfl
  | cons a l IH =>
    cases l with
    | nil => rfl
    | cons b l' => exact IH

theorem sorted_head_le_lastBound :
    ∀ (b : Nat) (rest : List Nat), List.Sorted (· ≤ ·) (b :: rest) → b ≤ lastBound (b :: rest)
  | _, [], _ => le_refl _
  | b, c :: rest, h => by
    have hbc : b ≤ c := (List.sorted_cons.1 h).1 c (by simp)
    have h2 := (List.sorted_cons.1 h).2
    calc b ≤ c := hbc
      _ ≤ lastBound (c :: rest) := sorted_head_le_lastBound c rest h2

theorem sliceChunks_flatten {α : Type} (d : List α) :
    ∀ (ks : List Nat) (a : Nat), List.Sorted (· ≤ ·) (a :: ks) →
      (sliceChunks d (a :: ks)).flatten = pySlice d a (lastBound (a :: ks))
  | [], a, _ => by
    show ([] : List (List α)).flatten = pySlice d a a
    rw [pySlice_self]
    rfl
  | b :: rest, a, h => by
    have hab : a ≤ b := (List.sorted_cons.1 h).1 b (by simp)
    have h2 : List.Sorted (· ≤ ·) (b :: rest) := (List.sorted_cons.1 h).2
    have hb : b ≤ lastBound (b :: rest) := sorted_head_le_lastBound b rest h2
    show (pySlice d a b :: sliceChunks d (b :: rest)).flatten
        = pySlice d a (lastBound (b :: rest))
    rw [List.flatten_cons, sliceChunks_flatten d rest b h2]
    exact pySlice_glue d a b _ hab hb

theorem foldl_dedup_mem (xs : List ℚ) : ∀ (acc : List ℚ) (x : ℚ),
    x ∈ xs.foldl (fun acc x => if acc.contains x then acc else acc ++ [x]) acc →
      x ∈ acc ∨ x ∈ xs := by
  induction xs with
  | nil => intro acc x h; exact Or.inl h
  | cons y ys IH =>
    intro acc x h
    rw [List.foldl_cons] at h
    rcases IH _ x h with h' | h'
    · by_cases hc : acc.contains y
      · rw [if_pos hc] at h'
        exact Or.inl h'
      · rw [if_neg hc] at h'
        rcases List.mem_append.1 h' with h'' | h''
        · exact Or.inl h''
        · simp at h''
          exact Or.inr (by simp [h''])
    · exact Or.inr (List.mem_cons_of_mem _ h')

theorem foldl_dedup_superset (xs : List ℚ) : ∀ (acc : List ℚ) (x : ℚ), x ∈ acc →
    x ∈ xs.foldl (fun acc x => if acc.contains x then acc else acc ++ [x]) acc := by
  induction xs with
  | nil => intro acc x h; simpa using h
  | cons y ys IH =>
    intro acc x h
    rw [List.foldl_cons]
    apply IH
    split
    · exact h
    · exact List.mem_append_left _ h

theorem mem_firstDedup {x : ℚ} {xs : List ℚ} (h : x ∈ firstDedup xs) : x ∈ xs := by
  rcases foldl_dedup_mem xs [] x h with h' | h'
  · simp at h'
  · exact h'

theorem head_mem_firstDedup (a : ℚ) (rest : List ℚ) : a ∈ firstDedup (a :: rest) := by
  unfold firstDedup
  rw [List.foldl_cons]
  have hc : ([] : List ℚ).contains a = false := rfl
  rw [hc]
  exact foldl_dedup_superset rest _ a (by simp)

theorem zero_mem_npUniqueIdx (a : ℚ) (rest : List ℚ) : 0 ∈ npUniqueIdx (a :: rest) := by
  have h1 : a ∈ npUnique (a :: rest) :=
    (List.perm_insertionSort _ _).mem_iff.2 (head_mem_firstDedup a rest)
  have h2 : (a :: rest).indexOf a = 0 := List.indexOf_cons_self a rest
  exact h2 ▸ List.mem_map_of_mem _ h1

theorem mem_npUniqueIdx_lt {xs : List ℚ} {x : Nat} (h : x ∈ npUniqueIdx xs) : x < xs.length := by
  rcases List.mem_map.1 h with ⟨v, hv, rfl⟩
  have hv2 : v ∈ firstDedup xs := (List.perm_insertionSort _ _).mem_iff.1 hv
  exact List.indexOf_lt_length.2 (mem_firstDedup hv2)

theorem kArray_sorted (ab : List ℚ) : List.Sorted (· ≤ ·) (kArray ab) := by
  unfold kArray
  refine List.pairwise_append.2 ⟨List.sorted_insertionSort _ _, List.sorted_singleton _, ?_⟩
  intro x hx y hy
  have hx2 : x ∈ npUniqueIdx ab := (List.perm_insertionSort _ _).mem_iff.1 hx
  have hx3 : x < ab.length := mem_npUniqueIdx_lt hx2
  simp at hy
  omega

theorem sorted_eq_zero_cons {l : List Nat} (hs : List.Sorted (· ≤ ·) l) (h0 : 0 ∈ l) :
    ∃ t, l = 0 :: t := by
  cases l with
  | nil => simp at h0
  | cons h t =>
    rcases List.mem_cons.1 h0 with h' | h'
    · exact ⟨t, by rw [← h']⟩
    · have hle : h ≤ 0 := (List.sorted_cons.1 hs).1 0 h'
      exact ⟨t, by rw [Nat.le_zero.1 hle]⟩

theorem kArray_head (a : ℚ) (rest : List ℚ) : ∃ t, kArray (a :: rest) = 0 :: t := by
  have h0 : 0 ∈ List.insertionSort (· ≤ ·) (npUniqueIdx (a :: rest)) :=
    (List.perm_insertionSort _ _).mem_iff.2 (zero_mem_npUniqueIdx a rest)
  obtain ⟨t, ht⟩ := sorted_eq_zero_cons (List.sorted_insertionSort _ _) h0
  exact ⟨t ++ [(a :: rest).length + 1], by rw [kArray, ht]; rfl⟩

theorem kArray_lastBound (ab : List ℚ) : lastBound (kArray ab) = ab.length + 1 := by
  unfold kArray
  exact lastBound_append _ _

theorem nSources_eq (ab : List ℚ) : nSources ab = (kArray ab).length - 1 := by
  simp [kArray, nSources, List.length_append, List.length_insertionSort]

theorem receiverBlocks_eq_chunks_aux {α : Type} (d : List α) :
    ∀ (ks : List Nat),
      (List.range (ks.length - 1)).map
        (fun ii => pySlice d (ks.getD ii 0) (ks.getD (ii + 1) 0)) = sliceChunks d ks
  | [] => rfl
  | [_] => rfl
  | a :: b :: rest => by
    have IH := receiverBlocks_eq_chunks_aux d (b :: rest)
    show (List.range (rest.length + 1)).map
        (fun ii => pySlice d ((a :: b :: rest).getD ii 0) ((a :: b :: rest).getD (ii + 1) 0))
      = pySlice d a b :: sliceChunks d (b :: rest)
    rw [List.range_succ_eq_map, List.map_cons, List.map_map, ← IH]
    show (pySlice d a b :: _) = (pySlice d a b :: _)
    congr 1

theorem receiverBlocks_eq_chunks {α : Type} (ab : List ℚ) (d : List α) :
    receiverBlocks ab d = sliceChunks d (kArray ab) := by
  rw [receiverBlocks, nSources_eq]
  exact receiverBlocks_eq_chunks_aux d _

theorem list_getD_map {α β : Type} (f : α → β) :
    ∀ (l : List α) (i : Nat), i < l.length → ∀ (db : β) (da : α),
      (l.map f).getD i db = f (l.getD i da)
  | [], i, hi, _, _ => by simp at hi
  | x :: xs, 0, _, _, _ => rfl
  | x :: xs, i + 1, hi, db, da => by
    rw [List.map_cons, List.getD_cons_succ, List.getD_cons_succ]
    exact list_getD_map f xs i (by simpa using hi) db da

/-! ## The claims -/

/-- C9: in the survey construction of `DC-1d-smooth-inversion-code.ipynb`,
for every data file whose rows with equal AB/2 values are contiguous, the
index slices `k[ii]:k[ii+1]` for `ii = 0 .. n_sources-1` assign each row of
a row-aligned column `d` (in particular each observed datum) to exactly one
source's receiver block: concatenating the `n_sources` blocks returns the
whole column.  Moreover the final slice bound `len(dobs)+1` is harmless:
slicing clamps to the array length, so the last block equals the block that
the bound `len(dobs)` would produce. -/
theorem claim_C9 {α : Type} (ab : List ℚ) (d : List α)
    (hlen : d.length = ab.length) (hcontig : contiguousAB ab) :
    (receiverBlocks ab d).flatten = d ∧
    (receiverBlocks ab d).length = nSources ab ∧
    pySlice d ((kArray ab).getD (nSources ab - 1) 0) (ab.length + 1)
      = pySlice d ((kArray ab).getD (nSources ab - 1) 0) ab.length := by
  refine ⟨?_, by simp [receiverBlocks], ?_⟩
  · cases ab with
    | nil =>
      have hd : d = [] := List.length_eq_zero.1 (by simpa using hlen)
      subst hd
      rfl
    | cons a rest =>
      have hsorted := kArray_sorted (a :: rest)
      obtain ⟨t, ht⟩ := kArray_head a rest
      rw [receiverBlocks_eq_chunks, ht]
      rw [sliceChunks_flatten d t 0 (ht ▸ hsorted)]
      rw [show lastBound (0 :: t) = (a :: rest).length + 1 from
        ht ▸ kArray_lastBound (a :: rest)]
      unfold pySlice
      rw [List.drop_zero]
      exact List.take_of_length_le (by omega)
  · unfold pySlice
    rw [List.take_of_length_le (by omega), List.take_of_length_le (by omega)]

/-- Witness for C9 at a concrete contiguous data file of six rows with
three distinct AB/2 values. -/
theorem claim_C9_witness :
    ([(10 : ℚ), 20, 30, 40, 50, 60] : List ℚ).length
        = ([2, 2, 5, 5, 5, 7] : List ℚ).length ∧
    contiguousAB [2, 2, 5, 5, 5, 7] ∧
    (receiverBlocks [2, 2, 5, 5, 5, 7] ([10, 20, 30, 40, 50, 60] : List ℚ)).flatten
      = [10, 20, 30, 40, 50, 60] :=
  ⟨rfl, by decide,
    (claim_C9 [2, 2, 5, 5, 5, 7] [10, 20, 30, 40, 50, 60] rfl (by decide)).1⟩

/-- C10: in the uncertainty assignment of `DC-1d-smooth-inversion-code.ipynb`,
when `uncertainty_column` is `None` every datum `i` receives the uncertainty
`uncertainty_floor + 0.01 * uncertainty_percent * |dobs[i]|`; when a column
name is given, the uncertainties are taken verbatim from that column of the
data frame; and in the `None` case, with the notebook's
`uncertainty_percent`, every uncertainty is strictly positive whenever the
floor is strictly positive. -/
theorem claim_C10 (df : String → List ℚ) (dobs : List ℚ) (ufloor upercent : ℚ)
    (c : String) :
    (∀ i, i < dobs.length →
      (uncertaintiesOf df none ufloor upercent dobs).getD i 0
        = ufloor + 0.01 * upercent * |dobs.getD i 0|) ∧
    uncertaintiesOf df (some c) ufloor upercent dobs = df c ∧
    (0 < ufloor →
      ∀ u ∈ uncertaintiesOf df none ufloor uncertainty_percent dobs, 0 < u) := by
  refine ⟨?_, rfl, ?_⟩
  · intro i hi
    exact list_getD_map _ dobs i hi 0 0
  · intro hfl u hu
    simp only [uncertaintiesOf, List.mem_map] at hu
    obtain ⟨x, _, rfl⟩ := hu
    have h1 : (0 : ℚ) ≤ 0.01 * uncertainty_percent * |x| := by
      have h2 := abs_nonneg x
      rw [uncertainty_percent]
      nlinarith
    linarith

/-- Witness for C10 at a concrete data frame and data vector. -/
theorem claim_C10_witness :
    uncertaintiesOf (fun _ => [7]) (some ("U")) 5 2 [100, -40] = [7] ∧
    (uncertaintiesOf (fun _ => [7]) none 5 2 [100, -40]).getD 0 0
      = 5 + 0.01 * 2 * |([100, -40] : List ℚ).getD 0 0| ∧
    (0 : ℚ) < 5 ∧
    (∀ u ∈ uncertaintiesOf (fun _ => [7]) none 5 uncertainty_percent [100, -40], 0 < u) :=
  ⟨(claim_C10 (fun _ => [7]) [100, -40] 5 2 ("U")).2.1,
   (claim_C10 (fun _ => [7]) [100, -40] 5 2 ("U")).1 0 (by norm_num),
   by norm_num,
   (claim_C10 (fun _ => [7]) [100, -40] 5 2 ("U")).2.2 (by norm_num)⟩

/-- C1 (counterexample): the claim "every notebook obtains its interactive
functionality from widget apps imported from `utils`, rather than by inline
calls to the numerical libraries" fails: `DC-1d-smooth-inversion-code.ipynb`
imports no `utils` module at all and imports SimPEG (and discretize)
directly, and `DC-plot-sounding-data.ipynb` imports no `utils` module
either. -/
theorem claim_C1_counterexample :
    (allNotebooks.all (fun p => wiredThroughUtilsApps p.2)) = false ∧
    importsLib smoothCodeNotebook ("utils") = false ∧
    importsLib smoothCodeNotebook ("SimPEG") = true ∧
    importsLib plotSoundingNotebook ("utils") = false :=
  ⟨rfl, rfl, rfl, rfl⟩

/-- C1 (amended): three of the five notebooks — the parametric app notebook,
the smooth app notebook and the layered-cylinder notebook — obtain their
interactivity from widget apps imported from `utils` and import neither
SimPEG nor discretize; `DC-1d-smooth-inversion-code.ipynb` instead calls
SimPEG / discretize inline without `utils`, and `DC-plot-sounding-data.ipynb`
uses only numpy / pandas / matplotlib with no `utils` apps. -/
theorem claim_C1_amended :
    wiredThroughUtilsApps parametricNotebook = true ∧
    wiredThroughUtilsApps smoothAppNotebook = true ∧
    wiredThroughUtilsApps layeredCylinderNotebook = true ∧
    importsLib smoothCodeNotebook ("utils") = false ∧
    importsLib smoothCodeNotebook ("SimPEG") = true ∧
    importsLib smoothCodeNotebook ("discretize") = true ∧
    importsLib plotSoundingNotebook ("utils") = false ∧
    importsLib plotSoundingNotebook ("SimPEG") = false ∧
    importsLib plotSoundingNotebook ("discretize") = false ∧
    nbImportedModules plotSoundingNotebook
      = [("numpy"), ("pandas"), ("matplotlib"), ("matplotlib.pyplot")] :=
  ⟨rfl, rfl, rfl, rfl, rfl, rfl, rfl, rfl, rfl, rfl⟩

/-- C2: no notebook defines a Python function or class (so none implements
the numerical machinery or any original algorithm), and every name standing
for such machinery in `DC-1d-smooth-inversion-code.ipynb` is bound by
an import from SimPEG or discretize; the machinery names are not even
mentioned in the code of the four other notebooks. -/
theorem claim_C2 :
    (allNotebooks.all (fun p => defCount p.2 == 0)) = true ∧
    importedFromLib smoothCodeNotebook ("TensorMesh") ("discretize") = true ∧
    (machineryIdents.all (fun m =>
      m == ("TensorMesh") || importedFromLib smoothCodeNotebook m ("SimPEG"))) = true ∧
    ([parametricNotebook, smoothAppNotebook, layeredCylinderNotebook,
      plotSoundingNotebook].all (fun nb =>
        machineryIdents.all (fun m => !((nbCodeIdents nb).contains m)))) = true :=
  ⟨rfl, rfl, rfl, rfl⟩

/-- C3: the smooth-inversion glue script composes exactly the library
objects the specification names, with the arguments recorded here: the
`DCSimulation_1D` physics (survey, `rhoMap` = `IdentityMap * ExpMap`, the
fixed `layer_thicknesses`, apparent-resistivity data type),
`regularization.Simple`, `optimization.InexactGaussNewton` with
`maxIter=30` and `maxIterCG=20`, `BaseInvProblem(dmis, reg, opt)`, and the
recovered model obtained as
`inversion.BaseInversion(inv_prob, directives_list).run(starting_model)`. -/
theorem claim_C3 :
    findAssign smoothCodeNotebook ("simulation")
      = some (pc (pa (pa (pn ("dc")) ("simulation_1d")) ("DCSimulation_1D")) []
          [(("survey"), pn ("survey")), (("rhoMap"), pn ("model_map")),
           (("thicknesses"), pn ("layer_thicknesses")),
           (("data_type"), ps ("apparent_resistivity"))]) ∧
    findAssign smoothCodeNotebook ("model_map")
      = some (.binop ("*") (pc (pa (pn ("maps")) ("IdentityMap")) [pn ("mesh")] [])
          (pc (pa (pn ("maps")) ("ExpMap")) [] [])) ∧
    findAssign smoothCodeNotebook ("layer_thicknesses")
      = some (.binop ("*") (pq 5) (.binop ("**") (pq 1.1)
          (pc (pa (pn ("np")) ("arange")) [pq 21] []))) ∧
    findAssign smoothCodeNotebook ("reg")
      = some (pc (pa (pn ("regularization")) ("Simple")) [pn ("mesh")]
          [(("alpha_s"), pq 0.001), (("alpha_x"), pq 1), (("mref"), pn ("starting_model"))]) ∧
    findAssign smoothCodeNotebook ("opt")
      = some (pc (pa (pn ("optimization")) ("InexactGaussNewton")) []
          [(("maxIter"), pq 30), (("maxIterCG"), pq 20), (("print_type"), ps ("ubc"))]) ∧
    findAssign smoothCodeNotebook ("inv_prob")
      = some (pc (pa (pn ("inverse_problem")) ("BaseInvProblem"))
          [pn ("dmis"), pn ("reg"), pn ("opt")] []) ∧
    findAssign smoothCodeNotebook ("inv")
      = some (pc (pa (pn ("inversion")) ("BaseInversion"))
          [pn ("inv_prob"), pn ("directives_list")] []) ∧
    findAssign smoothCodeNotebook ("recovered_model")
      = some (pc (pa (pn ("inv")) ("run")) [pn ("starting_model")] []) :=
  ⟨rfl, rfl, rfl, rfl, rfl, rfl, rfl, rfl⟩

/-- C4: the parametric notebook binds `DC1D3LayerApp` from
`utils.DCResistivity`, instantiates it as `dc_app` and runs its parametric
inversion, whose documented behaviour is to adjust the thickness and
resistivity of a user-specified number of layers; the smooth app notebook
binds and instantiates `DC1DInversionApp`, sets a mesh of fixed layer
thicknesses and runs an inversion that recovers one resistivity value per
layer defined there. -/
theorem claim_C4 :
    importedFromLib parametricNotebook ("DC1D3LayerApp") ("utils.DCResistivity") = true ∧
    findAssign parametricNotebook ("dc_app") = some (pc (pn ("DC1D3LayerApp")) [] []) ∧
    hasMethodCallStmt parametricNotebook ("dc_app") ("interact_run_inversion") = true ∧
    ((nbMarkdownLines parametricNotebook).contains ("Here, we load DC sounding data (VES format), interpret the data and invert the data to recover a 1D resistivity model. The steps for setting up and running and inversion and explained. In this notebook, we specify the number of layers responsible for the data values. The inversion will adjust the thickness and resistivity of these layers when recovering a resistivity model. The final result of the notebook is a 1D resistivity model that has approximately the same structures as the true geology.")) = true ∧
    ((nbMarkdownLines parametricNotebook).contains ("- $n_\x7blayers\x7d$: Number of layers you think there are")) = true ∧
    importedFromLib smoothAppNotebook ("DC1DInversionApp") ("utils.DCResistivity") = true ∧
    findAssign smoothAppNotebook ("dc_app") = some (pc (pn ("DC1DInversionApp")) [] []) ∧
    hasMethodCallStmt smoothAppNotebook ("dc_app") ("interact_run_inversion") = true ∧
    hasMethodCallStmt smoothAppNotebook ("dc_app") ("interact_set_mesh") = true ∧
    ((nbMarkdownLines smoothAppNotebook).contains ("The inversion will recover a resistivity value for each layer you define here. It is important that the number of layers you choose and their thicknesses are appropriate. The adjustable parameters are defined below:")) = true :=
  ⟨rfl, rfl, rfl, rfl, rfl, rfl, rfl, rfl, rfl, rfl⟩

/-- C5: the layered-cylinder notebook is the only notebook mentioning
`ResLayer_app`; it binds it from `utils.DCWidgetResLayer2_5D`, instantiates
it exactly once, and every one of its statements is either setup (imports,
the matplotlib magic, a font-size setting) or that single instantiation —
it contains no other computational code. -/
theorem claim_C5 :
    ((allNotebooks.filter (fun p => (nbCodeIdents p.2).contains ("ResLayer_app"))).map
        Prod.fst) = [("DC-layered-cylinder.ipynb")] ∧
    importedFromLib layeredCylinderNotebook ("ResLayer_app") ("utils.DCWidgetResLayer2_5D") = true ∧
    findAssign layeredCylinderNotebook ("app") = some (pc (pn ("ResLayer_app")) [] []) ∧
    ((deepStmts layeredCylinderNotebook).all layeredSetupOrApp) = true ∧
    ((deepStmts layeredCylinderNotebook).countP (fun s =>
      match s with
      | .assign _ (.call (.nameE f) _ _) => f == ("ResLayer_app")
      | _ => false)) = 1 :=
  ⟨rfl, rfl, rfl, rfl, rfl⟩

/-- C6: across the code of all five notebooks, the only identifiers
containing `doi` are the two app invocations `interact_run_doi` and
`interact_plot_doi_results` (both called on the external smooth-inversion
app); the only construction of a `BetaSchedule` is
`directives.BetaSchedule(coolingFactor=2., coolingRate=1.)`; and no
notebook defines a function or class, so neither computation is implemented
in the repository source. -/
theorem claim_C6 :
    ((allNotebooks.map (fun p => doiIdents p.2)).flatten)
      = [("interact_run_doi"), ("interact_plot_doi_results")] ∧
    hasMethodCallStmt smoothAppNotebook ("dc_app") ("interact_run_doi") = true ∧
    hasMethodCallStmt smoothAppNotebook ("dc_app") ("interact_plot_doi_results") = true ∧
    ((allNotebooks.map (fun p => callsOfAttr p.2 ("BetaSchedule"))).flatten)
      = [pc (pa (pn ("directives")) ("BetaSchedule")) []
          [(("coolingFactor"), pq 2), (("coolingRate"), pq 1)]] ∧
    (allNotebooks.all (fun p => defCount p.2 == 0)) = true :=
  ⟨rfl, rfl, rfl, rfl, rfl⟩

/-- C7: the manual fitting step of the parametric notebook is the cell
`dc_app.interact_1d_layer()` directly below the Step-2 markdown cell, which
fits the sounding curve with exactly 3 layers controlled by exactly five
adjustable parameters — the resistivities `rho1`, `rho2`, `rho3` and the
thicknesses `h1`, `h2` — the last layer having infinite thickness. -/
theorem claim_C7 :
    parametricNotebook[5]? = some (.markdown parametricStep2Lines) ∧
    parametricNotebook[6]?
      = some (.code [.exprStmt (pc (pa (pn ("dc_app")) ("interact_1d_layer")) [] [])]) ∧
    (parametricStep2Lines.filter (fun l => strPrefixOf ("- $") l))
      = [("- $\\rho_1$: resistivity of the top layer"),
         ("- $\\rho_2$: resistivity of the second layer"),
         ("- $\\rho_3$: resistivity of the last layer"),
         ("- $h_1$: thickness of the top layer"),
         ("- $h_2$: thickness of the second layer")] ∧
    (parametricStep2Lines.filter (fun l => strPrefixOf ("- $") l)).length = 5 ∧
    parametricStep2Lines.contains ("(The last layer has an infinite thickness)") = true ∧
    parametricStep2Lines.contains
      ("## Step 2: Manually fit observed VES sounding data using 3-layer app") = true :=
  ⟨rfl, rfl, rfl, rfl, rfl, rfl⟩

/-- C8: in `DC-1d-smooth-inversion-code.ipynb`, `update_sensitivity_weights`
is assigned the directive `directives.UpdateSensitivityWeights()` but the
name occurs exactly once in the whole notebook (that assignment), so it is
never used; the `directives_list` passed to `BaseInversion` is exactly
`[starting_beta, beta_schedule, save_iteration, target_misfit]`; and the
sensitivity-weighting lines of the regularization cell are commented out. -/
theorem claim_C8 :
    findAssign smoothCodeNotebook ("update_sensitivity_weights")
      = some (pc (pa (pn ("directives")) ("UpdateSensitivityWeights")) [] []) ∧
    ((nbCodeIdents smoothCodeNotebook).count ("update_sensitivity_weights")) = 1 ∧
    findAssign smoothCodeNotebook ("directives_list")
      = some (.listE (el [pn ("starting_beta"), pn ("beta_schedule"),
          pn ("save_iteration"), pn ("target_misfit")])) ∧
    findAssign smoothCodeNotebook ("inv")
      = some (pc (pa (pn ("inversion")) ("BaseInversion"))
          [pn ("inv_prob"), pn ("directives_list")] []) ∧
    hasCommentStmt smoothCodeNotebook
      ("wr = np.sum(simulation.getJ(starting_model)**2, axis=0)**0.5") = true ∧
    hasCommentStmt smoothCodeNotebook ("wr = (wr/np.max(np.abs(wr)))") = true ∧
    hasCommentStmt smoothCodeNotebook
      ("reg.cell_weights = wr  # include in regularization") = true :=
  ⟨rfl, rfl, rfl, rfl, rfl, rfl, rfl⟩
